import Mathlib

/-!
A shallow embedding of the snapshot-comparison ("delta engine") module of the
sonarcloud CLI repository, together with proofs of its specified properties.

JavaScript values are modelled as follows: value strings stay `String`;
JavaScript numbers produced by `parseFloat` are modelled as `ℚ`; integer
counts are `Nat` with `Int` differences; an optional field is an `Option`;
a field that the code probes with `Array.isArray` is a `JField` (missing,
present-but-not-an-array, or an array).  All functions are total, mirroring
the fact that the JavaScript code never throws on these inputs.
-/

namespace SonarCompare

/-- One measure entry of a snapshot: a metric name and its value string. -/
structure Measure where
  metric : String
  value : String
  deriving DecidableEq, Repr

/-- An issue record; only the (possibly absent) severity field is read by the
comparison code. -/
structure Issue where
  severity : Option String
  deriving DecidableEq, Repr

/-- A quality-gate object; its status field may itself be absent. -/
structure QualityGate where
  status : Option String
  deriving DecidableEq, Repr

/-- Project metadata; the name may be absent. -/
structure ProjectInfo where
  name : Option String
  deriving DecidableEq, Repr

/-- A JSON field that the code probes with Array.isArray: it may be missing,
present but not an array, or an actual array of elements. -/
inductive JField (α : Type) where
  | missing
  | notArray
  | arr (xs : List α)
  deriving DecidableEq, Repr

/-- Whether the field passes the Array.isArray check. -/
def JField.isArr {α : Type} : JField α → Bool
  | .arr _ => true
  | _ => false

/-- One saved quality snapshot, as read by compareQualityData. -/
structure Snapshot where
  projectInfo : Option ProjectInfo
  qualityGate : Option QualityGate
  measures : JField Measure
  issues : JField Issue
  timestamp : Option String
  deriving DecidableEq, Repr

/-- Reads a digit string as a natural number. -/
def digitsToNat (ds : List Char) : Nat :=
  ds.foldl (fun n c => 10 * n + (c.toNat - 48)) 0

/-- The optional exponent part after parseFloat's mantissa: an optional sign
followed by digits.  An exponent marker not followed by any digit is not
consumed by parseFloat's longest-valid-prefix rule and contributes 0. -/
def jsExponent (cs : List Char) : Int :=
  let esigned : Int × List Char :=
    match cs with
    | '-' :: rest => (-1, rest)
    | '+' :: rest => (1, rest)
    | _ => (1, cs)
  let eds := esigned.2.takeWhile Char.isDigit
  if eds = [] then 0 else esigned.1 * (digitsToNat eds : Int)

/-- Models JavaScript parseFloat on decimal literals: leading whitespace is
skipped, then an optional sign, digits with an optional fractional part, and
an optional e/E exponent are read as the longest valid prefix; `none` models
NaN (no digit could be read).  The one value outside this model is Infinity,
which `jsParsesInfinity` detects separately; hexadecimal needs no handling
because parseFloat itself stops at the x ("0x10" parses as 0 here and in
JavaScript alike). -/
def jsParseFloat (s : String) : Option ℚ :=
  let cs := s.data.dropWhile Char.isWhitespace
  let signed : ℚ × List Char :=
    match cs with
    | '-' :: rest => (-1, rest)
    | '+' :: rest => (1, rest)
    | _ => (1, cs)
  let ip := signed.2.takeWhile Char.isDigit
  let rest1 := signed.2.dropWhile Char.isDigit
  let fpRest : List Char × List Char :=
    match rest1 with
    | '.' :: rest2 => (rest2.takeWhile Char.isDigit, rest2.dropWhile Char.isDigit)
    | _ => ([], rest1)
  if ip = [] ∧ fpRest.1 = [] then none
  else
    let mantissa : ℚ :=
      signed.1 * ((digitsToNat ip : ℚ) + (digitsToNat fpRest.1 : ℚ) / (10 : ℚ) ^ fpRest.1.length)
    let expVal : Int :=
      match fpRest.2 with
      | 'e' :: rest3 => jsExponent rest3
      | 'E' :: rest3 => jsExponent rest3
      | _ => 0
    some (mantissa * (10 : ℚ) ^ expVal)

/-- Whether parseFloat reads an Infinity from the string: after optional
leading whitespace and an optional sign, the text starts with "Infinity".
Such a value is truthy in JavaScript and is not representable in the
rational-valued model, so the theorems about unparseable values exclude it
by hypothesis; a mere prefix such as "inf" is NaN in JavaScript too. -/
def jsParsesInfinity (s : String) : Bool :=
  let cs := s.data.dropWhile Char.isWhitespace
  let cs1 : List Char :=
    match cs with
    | '-' :: rest => rest
    | '+' :: rest => rest
    | _ => cs
  "Infinity".data.isPrefixOf cs1

/-- Models `parseFloat(v) || 0` on an optional value string: an absent value or
a parse failure (NaN) yields 0; a parsed 0 or -0 is falsy and also yields 0,
which coincides with `(jsParseFloat s).getD 0` since `(-0 : ℚ) = 0`. -/
def parseOr0 (v : Option String) : ℚ :=
  match v with
  | none => 0
  | some s => (jsParseFloat s).getD 0

/-- Models `v || d` on an optional string: both an absent value and the empty
string are falsy and fall back to the default. -/
def jsOrDefault (v : Option String) (d : String) : String :=
  match v with
  | none => d
  | some s => if s = "" then d else s

/-- Mirrors the reduce in compareMeasures that turns a measure array into a
metric-to-value object: each entry assigns `obj[measure.metric] =
measure.value`, a later entry overwriting an earlier one with the same key. -/
def buildObj (ms : List Measure) : String → Option String :=
  ms.foldl (fun obj m => fun k => if k = m.metric then some m.value else obj k) (fun _ => none)

/-- Mirrors `[...new Set([...Object.keys(fromObj), ...Object.keys(toObj)])]`:
the union of the metric keys of both sides, each key once.  Key order is
irrelevant to every property proved here. -/
def allMetrics (fl tl : List Measure) : List String :=
  (fl.map Measure.metric ++ tl.map Measure.metric).dedup

/-- The per-metric record of measuresChange. -/
structure MeasureDelta where
  fromV : String
  toV : String
  diff : ℚ
  improved : Bool
  deriving DecidableEq, Repr

/-- The metrics whose polarity is fewer-is-better in compareMeasures. -/
def lowerIsBetter : List String :=
  ["bugs", "vulnerabilities", "code_smells", "duplicated_lines_density"]

/-- The body of the forEach in compareMeasures: parse both sides (absent or
unparseable values contributing 0), take the difference, and classify it with
the fixed polarity table; display values fall back to the string "0". -/
def measureDelta (fromObj toObj : String → Option String) (metric : String) : MeasureDelta :=
  let fromValue := parseOr0 (fromObj metric)
  let toValue := parseOr0 (toObj metric)
  let diff := toValue - fromValue
  let improved : Bool :=
    if metric = "coverage" then decide (0 < diff)
    else if metric ∈ lowerIsBetter then decide (diff < 0)
    else false
  { fromV := jsOrDefault (fromObj metric) "0"
    toV := jsOrDefault (toObj metric) "0"
    diff := diff
    improved := improved }

/-- The changes mapping of compareMeasures, one entry per metric in the key
union, in that order. -/
def measureChangeList (fl tl : List Measure) : List (String × MeasureDelta) :=
  (allMetrics fl tl).map fun m => (m, measureDelta (buildObj fl) (buildObj tl) m)

/-- Result of compareMeasures: either `{available: false}` or the changes map. -/
inductive MeasuresChange where
  | unavailable
  | available (changes : List (String × MeasureDelta))
  deriving DecidableEq, Repr

/-- compareMeasures: if either side fails the Array.isArray check the result is
`{available: false}`; otherwise both sides are folded into objects and every
metric in the key union is compared. -/
def compareMeasures (f t : JField Measure) : MeasuresChange :=
  match f, t with
  | .arr fl, .arr tl => .available (measureChangeList fl tl)
  | _, _ => .unavailable

/-- The per-severity (and total) record of issuesChange. -/
structure CountDelta where
  fromC : Nat
  toC : Nat
  diff : Int
  improved : Bool
  deriving DecidableEq, Repr

/-- The fixed severity domain of compareIssues, in its iteration order. -/
def severities : List String := ["BLOCKER", "CRITICAL", "MAJOR", "MINOR", "INFO"]

/-- Result of compareIssues: either `{available: false}` or the per-severity
changes together with the aggregate total. -/
inductive IssuesChange where
  | unavailable
  | available (changes : List (String × CountDelta)) (total : CountDelta)
  deriving DecidableEq, Repr

/-- compareIssues: if either side fails the Array.isArray check the result is
`{available: false}`; otherwise count issues per recognized severity on each
side (an absent or unrecognized severity matches none of them), diff the
counts, and sum the five per-severity counts into the total. -/
def compareIssues (f t : JField Issue) : IssuesChange :=
  match f, t with
  | .arr fl, .arr tl =>
    let fromCounts := severities.map fun s => (s, (fl.filter fun i => i.severity = some s).length)
    let toCounts := severities.map fun s => (s, (tl.filter fun i => i.severity = some s).length)
    let changes := severities.map fun s =>
      let fromCount := (fromCounts.lookup s).getD 0
      let toCount := (toCounts.lookup s).getD 0
      let diff : Int := (toCount : Int) - (fromCount : Int)
      (s, { fromC := fromCount, toC := toCount, diff := diff,
            improved := decide (diff < 0) : CountDelta })
    let totalFrom := (fromCounts.map Prod.snd).sum
    let totalTo := (toCounts.map Prod.snd).sum
    let totalDiff : Int := (totalTo : Int) - (totalFrom : Int)
    .available changes
      { fromC := totalFrom, toC := totalTo, diff := totalDiff,
        improved := decide (totalDiff < 0) }
  | _, _ => .unavailable

/-- Result of compareQualityGate: either `{available: false}` or the statuses
with the improved/degraded classification. -/
inductive GateChange where
  | unavailable
  | change (fromStatus toStatus : Option String) (improved degraded : Bool)
  deriving DecidableEq, Repr

/-- compareQualityGate: if either gate object is absent the result is
`{available: false}`; otherwise improved iff the status moved from non-OK to
OK, degraded iff it moved from OK to non-OK.  An absent status field on a
present gate compares like any non-OK status. -/
def compareQualityGate (f t : Option QualityGate) : GateChange :=
  match f, t with
  | some fg, some tg =>
    .change fg.status tg.status
      (decide (fg.status ≠ some "OK") && decide (tg.status = some "OK"))
      (decide (fg.status = some "OK") && decide (tg.status ≠ some "OK"))
  | _, _ => .unavailable

/-- The summary block of a Comparison. -/
structure Summary where
  qualityGate : String
  improvements : List String
  degradations : List String
  deriving DecidableEq, Repr

/-- The one-line text pushed for a changed metric. -/
def metricLine (metric : String) (d : MeasureDelta) : String :=
  metric ++ ": " ++ d.fromV ++ " -> " ++ d.toV

/-- The one-line text pushed for a changed issue total; `word` is "fixed" or
"new". -/
def totalIssuesLine (total : CountDelta) (word : String) : String :=
  "Total issues: " ++ toString total.fromC ++ " -> " ++ toString total.toC ++
    " (" ++ toString total.diff.natAbs ++ " " ++ word ++ ")"

/-- The quality-gate text of the summary. -/
def gateText (g : GateChange) : String :=
  match g with
  | .change _ _ imp deg =>
    if imp then "Improved (Failed -> Passed)"
    else if deg then "Degraded (Passed -> Failed)"
    else "No change"
  | .unavailable => "No change"

/-- The body of the forEach over the measure changes in generateSummary: a
metric whose diff has positive absolute value is pushed to improvements when
improved and to degradations otherwise. -/
def summaryStep (acc : List String × List String) (p : String × MeasureDelta) :
    List String × List String :=
  if p.2.improved && decide (0 < |p.2.diff|) then (acc.1 ++ [metricLine p.1 p.2], acc.2)
  else if !p.2.improved && decide (0 < |p.2.diff|) then (acc.1, acc.2 ++ [metricLine p.1 p.2])
  else acc

/-- Mirrors the forEach over the measure changes in generateSummary, starting
from two empty accumulators. -/
def measureSummary (cs : List (String × MeasureDelta)) : List String × List String :=
  cs.foldl summaryStep ([], [])

/-- generateSummary: gate text, then the measure lines, then (when the issues
block is available and the total diff is nonzero) the total-issues line. -/
def generateSummary (g : GateChange) (m : MeasuresChange) (i : IssuesChange) : Summary :=
  let base : List String × List String :=
    match m with
    | .available cs => measureSummary cs
    | .unavailable => ([], [])
  let final : List String × List String :=
    match i with
    | .available _ total =>
      if total.diff ≠ 0 then
        if total.improved then (base.1 ++ [totalIssuesLine total "fixed"], base.2)
        else (base.1, base.2 ++ [totalIssuesLine total "new"])
      else base
    | .unavailable => base
  { qualityGate := gateText g
    improvements := final.1
    degradations := final.2 }

/-- The full output of compareQualityData. -/
structure Comparison where
  project : String
  fromDate : String
  toDate : String
  qualityGateChange : GateChange
  measuresChange : MeasuresChange
  issuesChange : IssuesChange
  summary : Summary
  deriving DecidableEq, Repr

/-- compareQualityData: assembles the three sub-comparisons and the summary.
Total by construction: every field of the Comparison is always present and no
input shape makes it throw. -/
def compareQualityData (fromData toData : Snapshot) : Comparison :=
  let g := compareQualityGate fromData.qualityGate toData.qualityGate
  let m := compareMeasures fromData.measures toData.measures
  let i := compareIssues fromData.issues toData.issues
  { project := jsOrDefault (toData.projectInfo.bind ProjectInfo.name) "Unknown"
    fromDate := jsOrDefault fromData.timestamp "Unknown"
    toDate := jsOrDefault toData.timestamp "Unknown"
    qualityGateChange := g
    measuresChange := m
    issuesChange := i
    summary := generateSummary g m i }

/-- Specification-level count: the number of issues carrying exactly the given
severity. -/
def sevCount (issues : List Issue) (s : String) : Nat :=
  (issues.filter fun i => i.severity = some s).length

/-! Helper lemmas -/

/-- The object built by the fold answers a key with the value of the last
measure entry carrying that key. -/
theorem buildObj_eq_getLast (ms : List Measure) (k : String) :
    buildObj ms k = ((ms.filter fun m => m.metric = k).getLast?).map Measure.value := by
  induction ms using List.reverseRecOn with
  | nil => rfl
  | append_singleton ms m ih =>
    unfold buildObj
    rw [List.foldl_append, List.filter_append]
    by_cases h : m.metric = k
    · have h1 : (([m] : List Measure).filter fun x => x.metric = k) = [m] := by simp [h]
      rw [h1, List.getLast?_concat]
      simp only [List.foldl]
      rw [if_pos h.symm]
      rfl
    · have h1 : (([m] : List Measure).filter fun x => x.metric = k) = [] := by simp [h]
      rw [h1, List.append_nil]
      simp only [List.foldl]
      rw [if_neg (fun hkk : k = m.metric => h hkk.symm)]
      exact ih

/-- A key that no entry carries is absent from the built object. -/
theorem buildObj_eq_none (ms : List Measure) (k : String)
    (h : k ∉ ms.map Measure.metric) : buildObj ms k = none := by
  rw [buildObj_eq_getLast]
  have : (ms.filter fun m => m.metric = k) = [] := by
    rw [List.filter_eq_nil_iff]
    intro m hm
    simp only [decide_eq_true_eq]
    intro hmk
    exact h (List.mem_map.mpr ⟨m, hm, hmk⟩)
  rw [this]
  rfl

/-- A key the built object answers is carried by some entry. -/
theorem mem_of_buildObj_eq_some (ms : List Measure) (k : String) (v : String)
    (h : buildObj ms k = some v) : k ∈ ms.map Measure.metric := by
  by_contra hk
  rw [buildObj_eq_none ms k hk] at h
  exact Option.noConfusion h

/-- Membership in the metric-key union. -/
theorem mem_allMetrics (fl tl : List Measure) (k : String) :
    k ∈ allMetrics fl tl ↔ k ∈ fl.map Measure.metric ∨ k ∈ tl.map Measure.metric := by
  rw [allMetrics, List.mem_dedup, List.mem_append]

/-- Looking a list element up in the graph of a function recovers the
function value. -/
theorem lookup_map_graph {β : Type} (l : List String) (f : String → β) (s : String)
    (hs : s ∈ l) : ((l.map fun x => (x, f x)).lookup s) = some (f s) := by
  induction l with
  | nil => cases hs
  | cons x xs ih =>
    simp only [List.map, List.lookup]
    by_cases h : s = x
    · subst h
      simp
    · have hbeq : (s == x) = false := by simp [h]
      rw [hbeq]
      exact ih ((List.mem_cons.mp hs).resolve_left h)

/-! Claim theorems for the specified properties -/

/-- C2: for two present quality gates, the comparison is available with
improved iff the status moved from non-OK to OK and degraded iff it moved
from OK to non-OK, both false in every other case (equal statuses or a move
between two non-OK statuses); an absent gate on either side yields
`{available: false}`. -/
theorem compareQualityGate_spec (f t : QualityGate) (g : Option QualityGate) :
    (∃ imp deg, compareQualityGate (some f) (some t) = .change f.status t.status imp deg ∧
      (imp = true ↔ f.status ≠ some "OK" ∧ t.status = some "OK") ∧
      (deg = true ↔ f.status = some "OK" ∧ t.status ≠ some "OK") ∧
      (f.status = t.status ∨ (f.status ≠ some "OK" ∧ t.status ≠ some "OK") →
        imp = false ∧ deg = false)) ∧
    compareQualityGate none g = .unavailable ∧
    compareQualityGate g none = .unavailable := by
  refine ⟨⟨_, _, rfl, ?_, ?_, ?_⟩, by cases g <;> rfl, by cases g <;> rfl⟩
  · simp [Bool.and_eq_true, decide_eq_true_eq]
  · simp [Bool.and_eq_true, decide_eq_true_eq]
  · rintro (heq | ⟨hf, ht⟩)
    · rw [heq]
      by_cases h : t.status = some "OK" <;> simp [h]
    · simp [hf, ht]

/-- C2 witness: the spec's concrete checks, FAILED to OK improves and the
absent-gate case is unavailable. -/
theorem compareQualityGate_spec_witness :
    (∃ imp deg,
      compareQualityGate (some ⟨some "FAILED"⟩) (some ⟨some "OK"⟩) =
        .change (some "FAILED") (some "OK") imp deg ∧
      (imp = true ↔ (some "FAILED" : Option String) ≠ some "OK" ∧
        (some "OK" : Option String) = some "OK") ∧
      (deg = true ↔ (some "FAILED" : Option String) = some "OK" ∧
        (some "OK" : Option String) ≠ some "OK") ∧
      ((some "FAILED" : Option String) = some "OK" ∨
        ((some "FAILED" : Option String) ≠ some "OK" ∧
          (some "OK" : Option String) ≠ some "OK") →
        imp = false ∧ deg = false)) ∧
    compareQualityGate none none = .unavailable ∧
    compareQualityGate none none = .unavailable :=
  compareQualityGate_spec ⟨some "FAILED"⟩ ⟨some "OK"⟩ none

/-- C9: when a side's measure list carries duplicate metric keys, the value
of the last occurrence wins in the metric-to-value mapping that
compareMeasures builds for that side. -/
theorem buildObj_last_write_wins (l1 l2 : List Measure) (m : Measure)
    (h : ∀ m2 ∈ l2, m2.metric ≠ m.metric) :
    buildObj (l1 ++ m :: l2) m.metric = some m.value := by
  rw [buildObj_eq_getLast, List.filter_append]
  have h3 : (l2.filter fun x => x.metric = m.metric) = [] :=
    List.filter_eq_nil_iff.mpr (fun x hx => by simpa using h x hx)
  have h2 : ((m :: l2).filter fun x => x.metric = m.metric) = [m] := by
    simp [List.filter_cons, h3]
  rw [h2, List.getLast?_concat]
  rfl

/-- C9 witness: with two entries for the metric "bugs", the later value "7"
wins over the earlier "5". -/
theorem buildObj_last_write_wins_witness :
    (∀ m2 ∈ ([] : List Measure), m2.metric ≠ ("bugs" : String)) ∧
    buildObj ([⟨"bugs", "5"⟩] ++ ⟨"bugs", "7"⟩ :: []) "bugs" = some "7" :=
  ⟨by simp, buildObj_last_write_wins [⟨"bugs", "5"⟩] [] ⟨"bugs", "7"⟩ (by simp)⟩

/-- C1: for every metric in the changes of compareMeasures, the improved flag
follows the fixed polarity table: coverage improves iff its diff is positive,
the four fewer-is-better metrics improve iff their diff is negative, and
every other metric is never improved whatever the sign of its diff. -/
theorem compareMeasures_polarity (fl tl : List Measure)
    (cs : List (String × MeasureDelta)) (metric : String) (d : MeasureDelta)
    (hc : compareMeasures (.arr fl) (.arr tl) = .available cs)
    (hm : (metric, d) ∈ cs) :
    (metric = "coverage" → (d.improved = true ↔ 0 < d.diff)) ∧
    (metric ∈ lowerIsBetter → (d.improved = true ↔ d.diff < 0)) ∧
    (metric ≠ "coverage" → metric ∉ lowerIsBetter → d.improved = false) := by
  simp only [compareMeasures] at hc
  injection hc with hcs
  subst hcs
  rw [measureChangeList, List.mem_map] at hm
  obtain ⟨m, hmem, heq⟩ := hm
  have h1 : m = metric := congrArg Prod.fst heq
  have h2 : measureDelta (buildObj fl) (buildObj tl) m = d := congrArg Prod.snd heq
  subst h1
  subst h2
  refine ⟨?_, ?_, ?_⟩
  · intro hcov
    simp [measureDelta, hcov]
  · intro hlib
    have hnc : m ≠ "coverage" := by
      rintro rfl
      revert hlib
      decide
    simp [measureDelta, hnc, hlib]
  · intro hnc hnl
    simp [measureDelta, hnc, hnl]

/-- C1 witness: coverage rising from 70 to 85 is classified as improved. -/
theorem compareMeasures_polarity_witness :
    compareMeasures (.arr [⟨"coverage", "70"⟩]) (.arr [⟨"coverage", "85"⟩]) =
      .available [("coverage", ⟨"70", "85", 15, true⟩)] ∧
    (("coverage", (⟨"70", "85", 15, true⟩ : MeasureDelta)) ∈
      [(("coverage" : String), (⟨"70", "85", 15, true⟩ : MeasureDelta))]) ∧
    ((("coverage" : String) = "coverage" →
      ((⟨"70", "85", 15, true⟩ : MeasureDelta).improved = true ↔
        0 < (⟨"70", "85", 15, true⟩ : MeasureDelta).diff)) ∧
    (("coverage" : String) ∈ lowerIsBetter →
      ((⟨"70", "85", 15, true⟩ : MeasureDelta).improved = true ↔
        (⟨"70", "85", 15, true⟩ : MeasureDelta).diff < 0)) ∧
    (("coverage" : String) ≠ "coverage" → ("coverage" : String) ∉ lowerIsBetter →
      (⟨"70", "85", 15, true⟩ : MeasureDelta).improved = false)) :=
  ⟨by with_unfolding_all decide, by simp,
    compareMeasures_polarity [⟨"coverage", "70"⟩] [⟨"coverage", "85"⟩]
      [("coverage", ⟨"70", "85", 15, true⟩)] "coverage" ⟨"70", "85", 15, true⟩
      (by with_unfolding_all decide) (by simp)⟩

/-- C5: the comparison domain of compareMeasures is the union of both sides'
metric keys; a metric present on only one side gets the display string "0"
on the missing side while that side contributes the number 0 to the diff,
in either orientation. -/
theorem compareMeasures_union_missing_side (fl tl : List Measure)
    (cs : List (String × MeasureDelta)) (metric : String)
    (hc : compareMeasures (.arr fl) (.arr tl) = .available cs) :
    (∀ k : String, k ∈ cs.map Prod.fst ↔
      (k ∈ fl.map Measure.metric ∨ k ∈ tl.map Measure.metric)) ∧
    (metric ∉ fl.map Measure.metric → metric ∈ tl.map Measure.metric →
      ∃ d, (metric, d) ∈ cs ∧ d.fromV = "0" ∧
        d.diff = parseOr0 (buildObj tl metric) - 0) ∧
    (metric ∈ fl.map Measure.metric → metric ∉ tl.map Measure.metric →
      ∃ d, (metric, d) ∈ cs ∧ d.toV = "0" ∧
        d.diff = 0 - parseOr0 (buildObj fl metric)) := by
  simp only [compareMeasures] at hc
  injection hc with hcs
  subst hcs
  refine ⟨?_, ?_, ?_⟩
  · intro k
    rw [measureChangeList, List.map_map]
    have hfst : (Prod.fst ∘ fun m => (m, measureDelta (buildObj fl) (buildObj tl) m)) = id := rfl
    rw [hfst, List.map_id]
    exact mem_allMetrics fl tl k
  · intro hf ht
    refine ⟨measureDelta (buildObj fl) (buildObj tl) metric, ?_, ?_, ?_⟩
    · rw [measureChangeList]
      exact List.mem_map.mpr ⟨metric, (mem_allMetrics fl tl metric).mpr (Or.inr ht), rfl⟩
    · simp [measureDelta, buildObj_eq_none fl metric hf, jsOrDefault]
    · simp [measureDelta, buildObj_eq_none fl metric hf, parseOr0]
  · intro hf ht
    refine ⟨measureDelta (buildObj fl) (buildObj tl) metric, ?_, ?_, ?_⟩
    · rw [measureChangeList]
      exact List.mem_map.mpr ⟨metric, (mem_allMetrics fl tl metric).mpr (Or.inl hf), rfl⟩
    · simp [measureDelta, buildObj_eq_none tl metric ht, jsOrDefault]
    · simp [measureDelta, buildObj_eq_none tl metric ht, parseOr0]

/-- C5 witness: a metric only in the to-snapshot with value "10" yields
from "0", to "10", diff 10, and a metric "gone" only in the from-snapshot
with value "7" yields to "0", diff -7. -/
theorem compareMeasures_union_missing_side_witness :
    compareMeasures (.arr [⟨"gone", "7"⟩]) (.arr [⟨"new_metric", "10"⟩]) =
      .available [("gone", ⟨"7", "0", -7, false⟩),
        ("new_metric", ⟨"0", "10", 10, false⟩)] ∧
    (∃ d, (("new_metric" : String), d) ∈
        [(("gone" : String), (⟨"7", "0", -7, false⟩ : MeasureDelta)),
         (("new_metric" : String), (⟨"0", "10", 10, false⟩ : MeasureDelta))] ∧
      d.fromV = "0" ∧
      d.diff = parseOr0 (buildObj [⟨"new_metric", "10"⟩] "new_metric") - 0) ∧
    (∃ d, (("gone" : String), d) ∈
        [(("gone" : String), (⟨"7", "0", -7, false⟩ : MeasureDelta)),
         (("new_metric" : String), (⟨"0", "10", 10, false⟩ : MeasureDelta))] ∧
      d.toV = "0" ∧
      d.diff = 0 - parseOr0 (buildObj [⟨"gone", "7"⟩] "gone")) :=
  ⟨by with_unfolding_all decide,
    (compareMeasures_union_missing_side [⟨"gone", "7"⟩] [⟨"new_metric", "10"⟩]
      [("gone", ⟨"7", "0", -7, false⟩), ("new_metric", ⟨"0", "10", 10, false⟩)]
      "new_metric" (by with_unfolding_all decide)).2.1 (by simp) (by simp),
    (compareMeasures_union_missing_side [⟨"gone", "7"⟩] [⟨"new_metric", "10"⟩]
      [("gone", ⟨"7", "0", -7, false⟩), ("new_metric", ⟨"0", "10", 10, false⟩)]
      "gone" (by with_unfolding_all decide)).2.2 (by simp) (by simp)⟩

/-- C6 counterexample: the empty string fails to parse as a number, yet the
displayed from-field of its metric is the string "0", not the original
(empty) unparseable string, refuting the claim that the original unparseable
string is always shown. -/
theorem unparseable_display_counterexample :
    jsParseFloat "" = none ∧
    compareMeasures (.arr [⟨"m", ""⟩]) (.arr []) =
      .available [("m", ⟨"0", "0", 0, false⟩)] ∧
    ("0" : String) ≠ "" :=
  ⟨by with_unfolding_all decide, by with_unfolding_all decide, by decide⟩

/-- C6 amended: a value string on which parseFloat yields NaN (it parses
neither as a decimal number, `jsParseFloat v = none`, nor as an Infinity,
which the rational model cannot hold and which is therefore excluded by
hypothesis) contributes 0 to the diff computation on whichever side its
metric carries it; the comparison is a total function, so no error is
possible, and that side's display field shows the original string unless it
is the empty string, which JavaScript's falsy default replaces by "0". -/
theorem compareMeasures_unparseable (fl tl : List Measure)
    (cs : List (String × MeasureDelta)) (metric v : String)
    (hc : compareMeasures (.arr fl) (.arr tl) = .available cs)
    (hp : jsParseFloat v = none) (_hinf : jsParsesInfinity v = false) :
    (buildObj fl metric = some v →
      ∃ d, (metric, d) ∈ cs ∧ d.diff = parseOr0 (buildObj tl metric) - 0 ∧
        d.fromV = (if v = "" then "0" else v)) ∧
    (buildObj tl metric = some v →
      ∃ d, (metric, d) ∈ cs ∧ d.diff = 0 - parseOr0 (buildObj fl metric) ∧
        d.toV = (if v = "" then "0" else v)) := by
  simp only [compareMeasures] at hc
  injection hc with hcs
  subst hcs
  constructor
  · intro hv
    refine ⟨measureDelta (buildObj fl) (buildObj tl) metric, ?_, ?_, ?_⟩
    · rw [measureChangeList]
      exact List.mem_map.mpr
        ⟨metric, (mem_allMetrics fl tl metric).mpr
          (Or.inl (mem_of_buildObj_eq_some fl metric v hv)), rfl⟩
    · simp [measureDelta, hv, parseOr0, hp]
    · simp [measureDelta, hv, jsOrDefault]
  · intro hv
    refine ⟨measureDelta (buildObj fl) (buildObj tl) metric, ?_, ?_, ?_⟩
    · rw [measureChangeList]
      exact List.mem_map.mpr
        ⟨metric, (mem_allMetrics fl tl metric).mpr
          (Or.inr (mem_of_buildObj_eq_some tl metric v hv)), rfl⟩
    · simp [measureDelta, hv, parseOr0, hp]
    · simp [measureDelta, hv, jsOrDefault]

/-- C6 amended witness: the value "abc" is NaN (and not an Infinity); on the
from side and on the to side alike it contributes 0 and is displayed
verbatim. -/
theorem compareMeasures_unparseable_witness :
    jsParseFloat "abc" = none ∧
    jsParsesInfinity "abc" = false ∧
    (∃ d, (("m" : String), d) ∈ [(("m" : String), (⟨"abc", "0", 0, false⟩ : MeasureDelta))] ∧
      d.diff = parseOr0 (buildObj ([] : List Measure) "m") - 0 ∧
      d.fromV = (if ("abc" : String) = "" then "0" else "abc")) ∧
    (∃ d, (("m" : String), d) ∈ [(("m" : String), (⟨"0", "abc", 0, false⟩ : MeasureDelta))] ∧
      d.diff = 0 - parseOr0 (buildObj ([] : List Measure) "m") ∧
      d.toV = (if ("abc" : String) = "" then "0" else "abc")) :=
  ⟨by with_unfolding_all decide, by decide,
    (compareMeasures_unparseable [⟨"m", "abc"⟩] [] [("m", ⟨"abc", "0", 0, false⟩)] "m" "abc"
      (by with_unfolding_all decide) (by with_unfolding_all decide) (by decide)).1
      (by with_unfolding_all decide),
    (compareMeasures_unparseable [] [⟨"m", "abc"⟩] [("m", ⟨"0", "abc", 0, false⟩)] "m" "abc"
      (by with_unfolding_all decide) (by with_unfolding_all decide) (by decide)).2
      (by with_unfolding_all decide)⟩

/-- C3 counterexample: an issue whose severity "WEIRD" is outside the fixed
severity set is excluded from the per-severity breakdown AND from the
aggregate totals: with one such from-side issue the total from-count is 0,
not 1, refuting the claim that such issues are still counted in the totals. -/
theorem unknown_severity_total_counterexample :
    compareIssues (.arr [⟨some "WEIRD"⟩]) (.arr []) =
      .available
        [("BLOCKER", ⟨0, 0, 0, false⟩), ("CRITICAL", ⟨0, 0, 0, false⟩),
         ("MAJOR", ⟨0, 0, 0, false⟩), ("MINOR", ⟨0, 0, 0, false⟩),
         ("INFO", ⟨0, 0, 0, false⟩)] ⟨0, 0, 0, false⟩ ∧
    (0 : Nat) ≠ 1 :=
  ⟨by decide, by decide⟩

/-- Removing one issue that matches no recognized severity changes none of
the per-severity filters. -/
theorem sevFilter_erase (l1 l2 : List Issue) (i : Issue) (s : String)
    (h : i.severity ≠ some s) :
    ((l1 ++ i :: l2).filter fun x => x.severity = some s) =
      ((l1 ++ l2).filter fun x => x.severity = some s) := by
  rw [List.filter_append, List.filter_append, List.filter_cons]
  simp [h]

/-- C3 amended: an issue whose severity is not one of the five recognized
severities is excluded from the per-severity breakdown and contributes
nothing to the aggregate totals either: dropping such an issue, wherever it
sits in either side's list, leaves the whole result of compareIssues
unchanged. -/
theorem compareIssues_unknown_severity_ignored (l1 l2 : List Issue)
    (other : JField Issue) (i : Issue)
    (h : ∀ s ∈ severities, i.severity ≠ some s) :
    compareIssues (.arr (l1 ++ i :: l2)) other = compareIssues (.arr (l1 ++ l2)) other ∧
    compareIssues other (.arr (l1 ++ i :: l2)) = compareIssues other (.arr (l1 ++ l2)) := by
  have hmap :
      (severities.map fun s => (s, ((l1 ++ i :: l2).filter fun x => x.severity = some s).length)) =
        severities.map fun s => (s, ((l1 ++ l2).filter fun x => x.severity = some s).length) := by
    apply List.map_congr_left
    intro s hs
    rw [sevFilter_erase l1 l2 i s (h s hs)]
  constructor
  · cases other with
    | arr ol =>
      simp only [compareIssues]
      rw [hmap]
    | missing => rfl
    | notArray => rfl
  · cases other with
    | arr ol =>
      simp only [compareIssues]
      rw [hmap]
    | missing => rfl
    | notArray => rfl

/-- C3 amended witness: one "WEIRD" issue, on the from side or on the to
side, compares exactly like no issue at all. -/
theorem compareIssues_unknown_severity_ignored_witness :
    (∀ s ∈ severities, (⟨some "WEIRD"⟩ : Issue).severity ≠ some s) ∧
    compareIssues (.arr ([] ++ ⟨some "WEIRD"⟩ :: [])) (.arr [⟨some "MAJOR"⟩]) =
      compareIssues (.arr ([] ++ [])) (.arr [⟨some "MAJOR"⟩]) ∧
    compareIssues (.arr [⟨some "MAJOR"⟩]) (.arr ([] ++ ⟨some "WEIRD"⟩ :: [])) =
      compareIssues (.arr [⟨some "MAJOR"⟩]) (.arr ([] ++ [])) :=
  ⟨by decide,
    (compareIssues_unknown_severity_ignored [] [] (.arr [⟨some "MAJOR"⟩])
      ⟨some "WEIRD"⟩ (by decide)).1,
    (compareIssues_unknown_severity_ignored [] [] (.arr [⟨some "MAJOR"⟩])
      ⟨some "WEIRD"⟩ (by decide)).2⟩

/-- C4: on two issue arrays, each recognized severity appears in the changes
with the counts of exactly matching issues on each side, diff the signed
count difference and improved iff that diff is negative; the totals are the
sums of the five per-severity counts on each side (unrecognized severities
contributing nothing), with improved iff the total diff is negative. -/
theorem compareIssues_spec (fl tl : List Issue) (s : String) (hs : s ∈ severities) :
    ∃ cs total, compareIssues (.arr fl) (.arr tl) = .available cs total ∧
      (s, (⟨sevCount fl s, sevCount tl s,
        (sevCount tl s : Int) - (sevCount fl s : Int),
        decide ((sevCount tl s : Int) - (sevCount fl s : Int) < 0)⟩ : CountDelta)) ∈ cs ∧
      total.fromC = (severities.map (sevCount fl)).sum ∧
      total.toC = (severities.map (sevCount tl)).sum ∧
      total.diff = ((severities.map (sevCount tl)).sum : Int) -
        ((severities.map (sevCount fl)).sum : Int) ∧
      (total.improved = true ↔ total.diff < 0) := by
  refine ⟨_, _, rfl, ?_, ?_, ?_, ?_, ?_⟩
  · apply List.mem_map.mpr
    refine ⟨s, hs, ?_⟩
    have h1 := lookup_map_graph severities
      (fun s2 => (fl.filter fun i => i.severity = some s2).length) s hs
    have h2 := lookup_map_graph severities
      (fun s2 => (tl.filter fun i => i.severity = some s2).length) s hs
    rw [h1, h2]
    rfl
  · rw [List.map_map]
    rfl
  · rw [List.map_map]
    rfl
  · rw [List.map_map, List.map_map]
    rfl
  · simp

/-- C4 witness: the spec's example, three MAJOR issues reduced to one, gives
the MAJOR entry from 3 to 1 with diff -2 improved, and the same totals. -/
theorem compareIssues_spec_witness :
    ("MAJOR" : String) ∈ severities ∧
    (∃ cs total,
      compareIssues (.arr [⟨some "MAJOR"⟩, ⟨some "MAJOR"⟩, ⟨some "MAJOR"⟩])
        (.arr [⟨some "MAJOR"⟩]) = .available cs total ∧
      (("MAJOR" : String),
        (⟨sevCount [⟨some "MAJOR"⟩, ⟨some "MAJOR"⟩, ⟨some "MAJOR"⟩] "MAJOR",
          sevCount [⟨some "MAJOR"⟩] "MAJOR",
          (sevCount [⟨some "MAJOR"⟩] "MAJOR" : Int) -
            (sevCount [⟨some "MAJOR"⟩, ⟨some "MAJOR"⟩, ⟨some "MAJOR"⟩] "MAJOR" : Int),
          decide ((sevCount [⟨some "MAJOR"⟩] "MAJOR" : Int) -
            (sevCount [⟨some "MAJOR"⟩, ⟨some "MAJOR"⟩, ⟨some "MAJOR"⟩] "MAJOR" : Int) < 0)⟩
          : CountDelta)) ∈ cs ∧
      total.fromC =
        (severities.map (sevCount [⟨some "MAJOR"⟩, ⟨some "MAJOR"⟩, ⟨some "MAJOR"⟩])).sum ∧
      total.toC = (severities.map (sevCount [⟨some "MAJOR"⟩])).sum ∧
      total.diff = ((severities.map (sevCount [⟨some "MAJOR"⟩])).sum : Int) -
        ((severities.map (sevCount [⟨some "MAJOR"⟩, ⟨some "MAJOR"⟩, ⟨some "MAJOR"⟩])).sum : Int) ∧
      (total.improved = true ↔ total.diff < 0)) :=
  ⟨by decide,
    compareIssues_spec [⟨some "MAJOR"⟩, ⟨some "MAJOR"⟩, ⟨some "MAJOR"⟩]
      [⟨some "MAJOR"⟩] "MAJOR" (by decide)⟩

/-- compareMeasures degrades to unavailable when either side is not an
array. -/
theorem compareMeasures_unavailable (f t : JField Measure)
    (h : f.isArr = false ∨ t.isArr = false) : compareMeasures f t = .unavailable := by
  cases f <;> cases t <;> simp_all [compareMeasures, JField.isArr]

/-- compareIssues degrades to unavailable when either side is not an array. -/
theorem compareIssues_unavailable (f t : JField Issue)
    (h : f.isArr = false ∨ t.isArr = false) : compareIssues f t = .unavailable := by
  cases f <;> cases t <;> simp_all [compareIssues, JField.isArr]

/-- compareQualityGate degrades to unavailable when either gate is absent. -/
theorem compareQualityGate_unavailable (f t : Option QualityGate)
    (h : f = none ∨ t = none) : compareQualityGate f t = .unavailable := by
  cases f <;> cases t <;> simp_all [compareQualityGate]

/-- C7: compareQualityData is a total function whose result always carries
all four blocks; a missing or non-array measures or issues field degrades
only its own sub-comparison to unavailable, an absent gate degrades only the
gate block, each block is computed independently from its own inputs, and
the summary is still generated from the three blocks. -/
theorem compareQualityData_degrades (fromData toData : Snapshot) :
    ((fromData.measures.isArr = false ∨ toData.measures.isArr = false) →
      (compareQualityData fromData toData).measuresChange = .unavailable) ∧
    ((fromData.issues.isArr = false ∨ toData.issues.isArr = false) →
      (compareQualityData fromData toData).issuesChange = .unavailable) ∧
    ((fromData.qualityGate = none ∨ toData.qualityGate = none) →
      (compareQualityData fromData toData).qualityGateChange = .unavailable) ∧
    (compareQualityData fromData toData).qualityGateChange =
      compareQualityGate fromData.qualityGate toData.qualityGate ∧
    (compareQualityData fromData toData).measuresChange =
      compareMeasures fromData.measures toData.measures ∧
    (compareQualityData fromData toData).issuesChange =
      compareIssues fromData.issues toData.issues ∧
    (compareQualityData fromData toData).summary =
      generateSummary (compareQualityGate fromData.qualityGate toData.qualityGate)
        (compareMeasures fromData.measures toData.measures)
        (compareIssues fromData.issues toData.issues) := by
  refine ⟨?_, ?_, ?_, rfl, rfl, rfl, rfl⟩
  · exact fun h => compareMeasures_unavailable _ _ h
  · exact fun h => compareIssues_unavailable _ _ h
  · exact fun h => compareQualityGate_unavailable _ _ h

/-- C7 witness: a snapshot with a missing measures field, a non-array issues
field and no gate degrades all three blocks while the comparison is still
assembled. -/
theorem compareQualityData_degrades_witness :
    ((JField.missing : JField Measure).isArr = false ∨
      (JField.arr ([] : List Measure)).isArr = false) ∧
    (compareQualityData ⟨none, none, .missing, .notArray, none⟩
      ⟨none, none, .arr [], .arr [], none⟩).measuresChange = .unavailable ∧
    (compareQualityData ⟨none, none, .missing, .notArray, none⟩
      ⟨none, none, .arr [], .arr [], none⟩).issuesChange = .unavailable ∧
    (compareQualityData ⟨none, none, .missing, .notArray, none⟩
      ⟨none, none, .arr [], .arr [], none⟩).qualityGateChange = .unavailable :=
  ⟨Or.inl rfl,
    (compareQualityData_degrades ⟨none, none, .missing, .notArray, none⟩
      ⟨none, none, .arr [], .arr [], none⟩).1 (Or.inl rfl),
    (compareQualityData_degrades ⟨none, none, .missing, .notArray, none⟩
      ⟨none, none, .arr [], .arr [], none⟩).2.1 (Or.inl rfl),
    (compareQualityData_degrades ⟨none, none, .missing, .notArray, none⟩
      ⟨none, none, .arr [], .arr [], none⟩).2.2.1 (Or.inl rfl)⟩

/-- The forEach of generateSummary, run from any pair of accumulators,
appends exactly the lines of the nonzero-diff metrics, split by the improved
flag. -/
theorem measureSummary_foldl (cs : List (String × MeasureDelta))
    (acc : List String × List String) :
    cs.foldl summaryStep acc =
      (acc.1 ++ ((cs.filter fun p => p.2.improved && decide (p.2.diff ≠ 0)).map
          fun p => metricLine p.1 p.2),
       acc.2 ++ ((cs.filter fun p => !p.2.improved && decide (p.2.diff ≠ 0)).map
          fun p => metricLine p.1 p.2)) := by
  induction cs generalizing acc with
  | nil => simp
  | cons p cs ih =>
    rw [List.foldl_cons, ih, List.filter_cons, List.filter_cons]
    by_cases himp : p.2.improved = true <;> by_cases hz : p.2.diff = 0 <;>
      simp [summaryStep, himp, hz, abs_pos, List.append_assoc]

/-- C8: the improvements of a generated summary are exactly one line per
nonzero-diff metric whose improved flag holds, followed by the total-issues
"fixed" line when the issue total is available with a negative-improved
nonzero diff; degradations symmetrically collect the non-improved
nonzero-diff metrics and the "new" total line; zero-diff metrics appear in
neither list, and without an issues block no total line appears. -/
theorem generateSummary_spec (g : GateChange) (cs : List (String × MeasureDelta))
    (ics : List (String × CountDelta)) (total : CountDelta) :
    (generateSummary g (.available cs) (.available ics total)).improvements =
      ((cs.filter fun p => p.2.improved && decide (p.2.diff ≠ 0)).map
          fun p => metricLine p.1 p.2) ++
        (if total.improved && decide (total.diff ≠ 0)
          then [totalIssuesLine total "fixed"] else []) ∧
    (generateSummary g (.available cs) (.available ics total)).degradations =
      ((cs.filter fun p => !p.2.improved && decide (p.2.diff ≠ 0)).map
          fun p => metricLine p.1 p.2) ++
        (if !total.improved && decide (total.diff ≠ 0)
          then [totalIssuesLine total "new"] else []) ∧
    (generateSummary g (.available cs) .unavailable).improvements =
      ((cs.filter fun p => p.2.improved && decide (p.2.diff ≠ 0)).map
          fun p => metricLine p.1 p.2) ∧
    (generateSummary g (.available cs) .unavailable).degradations =
      ((cs.filter fun p => !p.2.improved && decide (p.2.diff ≠ 0)).map
          fun p => metricLine p.1 p.2) := by
  have hms := measureSummary_foldl cs ([], [])
  refine ⟨?_, ?_, ?_, ?_⟩ <;>
  · simp only [generateSummary, measureSummary, hms]
    by_cases himp : total.improved = true <;> by_cases hz : total.diff = 0 <;>
      simp [himp, hz]

/-- C10: compareQualityGate only tests presence of the gate objects, not of
their status field: a present gate whose status is absent compares like a
non-OK status, so an empty from-gate against a to-gate with status OK is
available with improved true and degraded false, the from-status undefined. -/
theorem compareQualityGate_absent_status :
    (∀ t : QualityGate, compareQualityGate (some ⟨none⟩) (some t) =
      .change none t.status (decide (t.status = some "OK")) false) ∧
    compareQualityGate (some ⟨none⟩) (some ⟨some "OK"⟩) =
      .change none (some "OK") true false := by
  constructor
  · intro t
    simp [compareQualityGate]
  · rfl

end SonarCompare
